import Mathlib

/-!
# ResourceManager: a GPU-resource cache

A shallow embedding of `src/src/ResourceManager.cpp` and of the template
members defined in `src/include/ResourceManager.h`.

* COM interface pointers are natural numbers, `0` being `nullptr`.
* `std::wstring` / `std::string` are lists of code units.
* Each `std::unordered_map` is an association list with `find` and `assign`
  (`operator[]` followed by assignment).
* The outside world (WIC, the HLSL compiler, the D3D11 device) is an explicit
  argument carrying the `HRESULT` and the out-parameter of every call the
  function can make; every load returns, next to its outcome and the new
  manager state, the log of pipeline calls it really issued.
* A member call through a null `m_device` is undefined behaviour in C++; the
  embedding reports it as the distinct outcome `Outcome.nullDevice`.
-/

namespace Cssrc

/-! ## Basic types -/

/-- A `std::wstring`: a sequence of 16-bit code units. -/
abbrev WString := List Nat

/-- A `std::string` or a raw byte buffer: a sequence of bytes `0..255`. -/
abbrev Bytes := List Nat

/-- A COM interface pointer; `0` is `nullptr`. -/
abbrev Handle := Nat

/-- A Windows `HRESULT` (signed). -/
abbrev HResult := Int

/-- The Windows `FAILED(hr)` test: the status is negative. -/
def FAILED (hr : HResult) : Bool := decide (hr < 0)

/-- The bytes of an ASCII string literal of the source. -/
def ascii (s : String) : Bytes := s.toList.map Char.toNat

/-- Reduction to a 32-bit `UINT`. -/
def u32 (n : Nat) : Nat := n % 2 ^ 32

/-! ## Tables (`std::unordered_map<std::wstring, T*>`) -/

/-- One resource table. Iteration order is the list order. -/
abbrev Table := List (WString × Handle)

/-- The `find` member: the stored handle of a key, or `none` for `end()`. -/
def find : Table → WString → Option Handle
  | [], _ => none
  | (k, v) :: rest, key => if k = key then some v else find rest key

/-- The statement `m[key] = v`: overwrite the entry of `key`, or add one. -/
def assign : Table → WString → Handle → Table
  | [], key, v => [(key, v)]
  | (k, old) :: rest, key, v =>
    if k = key then (k, v) :: rest else (k, old) :: assign rest key v

/-! ## Manager state -/

/-- The data members of the class. `m_device`, `m_deviceContext`,
`m_textureMap`, `m_vertexShaderMap` and `m_pixelShaderMap` are the members the
functions of `ResourceManager.cpp` use; `m_buffers` and `m_inputLayouts` are the
two further tables declared in `ResourceManager.h` (`m_buffers` is the one the
template members `CreateBuffer` and `GetBuffer` use). -/
structure ResourceManager where
  m_device : Handle
  m_deviceContext : Handle
  m_textureMap : Table
  m_vertexShaderMap : Table
  m_pixelShaderMap : Table
  m_buffers : Table
  m_inputLayouts : Table
  deriving DecidableEq, Repr

/-- The description `D3D11_BUFFER_DESC` as filled in by `CreateBuffer`. -/
structure BufferDesc where
  ByteWidth : Nat
  Usage : Nat
  BindFlags : Nat
  CPUAccessFlags : Nat
  deriving DecidableEq, Repr

/-- The external calls of the load pipelines, with the arguments the source
computes for them. -/
inductive Stage where
  | CoCreateInstance
  | CreateDecoderFromFilename (filePath : WString)
  | GetFrame
  | CreateFormatConverter
  | ConverterInitialize
  | CopyPixels (stride : Nat) (size : Nat)
  | CreateTexture2D (width : Nat) (height : Nat) (pitch : Nat)
  | CreateShaderResourceView (texture : Handle)
  | D3DCompileFromFile (filePath : WString) (entryPoint : Bytes) (target : Bytes)
  | CreateVertexShader
  | CreatePixelShader
  | CreateBuffer (desc : BufferDesc) (withInitData : Bool)
  deriving DecidableEq, Repr

/-- The calls that go through `m_device`. -/
def Stage.isDeviceCreate : Stage → Bool
  | .CreateTexture2D _ _ _ => true
  | .CreateShaderResourceView _ => true
  | .CreateVertexShader => true
  | .CreatePixelShader => true
  | .CreateBuffer _ _ => true
  | _ => false

/-- One issued call together with the status it returned. -/
structure Call where
  stage : Stage
  hr : HResult
  deriving DecidableEq, Repr

/-- How a member function ends. -/
inductive Outcome (α : Type) where
  | returned (value : α)
  | threw (what : Bytes)
  | nullDevice (stage : Stage)
  deriving DecidableEq, Repr

/-- The result of running a member function: how it ended, the manager
afterwards and the pipeline calls issued, oldest first. -/
structure Run (α : Type) where
  outcome : Outcome α
  state : ResourceManager
  log : List Call
  deriving DecidableEq, Repr

/-- Some issued call returned a failure status. -/
def stageFailed (log : List Call) : Prop := ∃ c ∈ log, FAILED c.hr = true

/-- The number of device create-calls in a log. -/
def deviceCreateCount (log : List Call) : Nat :=
  (log.filter (fun c => c.stage.isDeviceCreate)).length

/-! ## Construction, `Initialize` -/

/-- The constructor: null device references, empty tables. -/
def ResourceManager.construct : ResourceManager :=
  { m_device := 0, m_deviceContext := 0, m_textureMap := [], m_vertexShaderMap := [],
    m_pixelShaderMap := [], m_buffers := [], m_inputLayouts := [] }

/-- The member `Initialize(device, context)`. -/
def ResourceManager.Initialize (s : ResourceManager) (device context : Handle) : Run Unit :=
  if device = 0 ∨ context = 0 then
    { outcome := .threw (ascii "Invalid DirectX device or context"), state := s, log := [] }
  else
    { outcome := .returned (),
      state := { s with m_device := device, m_deviceContext := context },
      log := [] }

/-! ## `LoadTexture` -/

/-- What the world answers to the calls of one `LoadTexture` run. `GetSize`
yields `width` and `height`; its status is not inspected by the source. -/
structure TextureWorld where
  hrFactory : HResult
  hrDecoder : HResult
  hrFrame : HResult
  hrConverter : HResult
  hrConvInit : HResult
  width : Nat
  height : Nat
  hrCopyPixels : HResult
  hrTexture : HResult
  texture : Handle
  hrView : HResult
  srv : Handle
  deriving DecidableEq, Repr

/-- The member `LoadTexture(filePath)`. -/
def ResourceManager.LoadTexture (s : ResourceManager) (filePath : WString)
    (w : TextureWorld) : Run Handle :=
  match find s.m_textureMap filePath with
  | some h => { outcome := .returned h, state := s, log := [] }
  | none =>
    let l1 : List Call := [⟨.CoCreateInstance, w.hrFactory⟩]
    if FAILED w.hrFactory then
      { outcome := .threw (ascii "Failed to create WIC factory"), state := s, log := l1 }
    else
    let l2 := l1 ++ [⟨.CreateDecoderFromFilename filePath, w.hrDecoder⟩]
    if FAILED w.hrDecoder then
      { outcome := .threw (ascii "Failed to load texture file"), state := s, log := l2 }
    else
    let l3 := l2 ++ [⟨.GetFrame, w.hrFrame⟩]
    if FAILED w.hrFrame then
      { outcome := .threw (ascii "Failed to get texture frame"), state := s, log := l3 }
    else
    let l4 := l3 ++ [⟨.CreateFormatConverter, w.hrConverter⟩]
    if FAILED w.hrConverter then
      { outcome := .threw (ascii "Failed to create format converter"), state := s, log := l4 }
    else
    let l5 := l4 ++ [⟨.ConverterInitialize, w.hrConvInit⟩]
    if FAILED w.hrConvInit then
      { outcome := .threw (ascii "Failed to initialize format converter"), state := s,
        log := l5 }
    else
    let width := u32 w.width
    let height := u32 w.height
    let size := u32 (u32 (width * height) * 4)
    let pitch := u32 (width * 4)
    let l6 := l5 ++ [⟨.CopyPixels pitch size, w.hrCopyPixels⟩]
    if FAILED w.hrCopyPixels then
      { outcome := .threw (ascii "Failed to copy texture pixels"), state := s, log := l6 }
    else
    if s.m_device = 0 then
      { outcome := .nullDevice (.CreateTexture2D width height pitch), state := s, log := l6 }
    else
    let l7 := l6 ++ [⟨.CreateTexture2D width height pitch, w.hrTexture⟩]
    if FAILED w.hrTexture then
      { outcome := .threw (ascii "Failed to create texture"), state := s, log := l7 }
    else
    let l8 := l7 ++ [⟨.CreateShaderResourceView w.texture, w.hrView⟩]
    if FAILED w.hrView then
      { outcome := .threw (ascii "Failed to create shader resource view"), state := s,
        log := l8 }
    else
      { outcome := .returned w.srv,
        state := { s with m_textureMap := assign s.m_textureMap filePath w.srv },
        log := l8 }

/-! ## Shaders -/

/-- The conversion `wchar_t(char)` done by `std::wstring(first, last)` on a
byte of a narrow string: `char` is signed, so bytes from 128 up are
sign-extended to 16 bits. -/
def widen (b : Nat) : Nat := if b < 128 then b else b + 0xFF00

/-- The table key of both shader loaders:
`filePath + L":" + std::wstring(entryPoint.begin(), entryPoint.end())`. -/
def shaderKey (filePath : WString) (entryPoint : Bytes) : WString :=
  (filePath ++ [58]) ++ entryPoint.map widen

/-- The C string a `char*` points to: the bytes before the first NUL. (For a
buffer without a NUL the C++ read runs past the buffer; the embedding then
yields the whole buffer.) -/
def cstr (buffer : Bytes) : Bytes := buffer.takeWhile (fun b => b != 0)

/-- What the world answers to the calls of one shader load. `errorBlob` is
`none` when the compiler leaves the blob pointer null, else the blob buffer. -/
structure ShaderWorld where
  hrCompile : HResult
  errorBlob : Option Bytes
  hrCreate : HResult
  shader : Handle
  deriving DecidableEq, Repr

/-- The member `LoadVertexShader(filePath, entryPoint, target)`. -/
def ResourceManager.LoadVertexShader (s : ResourceManager) (filePath : WString)
    (entryPoint target : Bytes) (w : ShaderWorld) : Run Handle :=
  let key := shaderKey filePath entryPoint
  match find s.m_vertexShaderMap key with
  | some h => { outcome := .returned h, state := s, log := [] }
  | none =>
    let l1 : List Call := [⟨.D3DCompileFromFile filePath entryPoint target, w.hrCompile⟩]
    if FAILED w.hrCompile then
      match w.errorBlob with
      | some blob => { outcome := .threw (cstr blob), state := s, log := l1 }
      | none =>
        { outcome := .threw (ascii "Failed to compile vertex shader"), state := s, log := l1 }
    else
    if s.m_device = 0 then
      { outcome := .nullDevice .CreateVertexShader, state := s, log := l1 }
    else
    let l2 := l1 ++ [⟨.CreateVertexShader, w.hrCreate⟩]
    if FAILED w.hrCreate then
      { outcome := .threw (ascii "Failed to create vertex shader"), state := s, log := l2 }
    else
      { outcome := .returned w.shader,
        state := { s with m_vertexShaderMap := assign s.m_vertexShaderMap key w.shader },
        log := l2 }

/-- The member `LoadPixelShader(filePath, entryPoint, target)`. -/
def ResourceManager.LoadPixelShader (s : ResourceManager) (filePath : WString)
    (entryPoint target : Bytes) (w : ShaderWorld) : Run Handle :=
  let key := shaderKey filePath entryPoint
  match find s.m_pixelShaderMap key with
  | some h => { outcome := .returned h, state := s, log := [] }
  | none =>
    let l1 : List Call := [⟨.D3DCompileFromFile filePath entryPoint target, w.hrCompile⟩]
    if FAILED w.hrCompile then
      match w.errorBlob with
      | some blob => { outcome := .threw (cstr blob), state := s, log := l1 }
      | none =>
        { outcome := .threw (ascii "Failed to compile pixel shader"), state := s, log := l1 }
    else
    if s.m_device = 0 then
      { outcome := .nullDevice .CreatePixelShader, state := s, log := l1 }
    else
    let l2 := l1 ++ [⟨.CreatePixelShader, w.hrCreate⟩]
    if FAILED w.hrCreate then
      { outcome := .threw (ascii "Failed to create pixel shader"), state := s, log := l2 }
    else
      { outcome := .returned w.shader,
        state := { s with m_pixelShaderMap := assign s.m_pixelShaderMap key w.shader },
        log := l2 }

/-! ## Buffers (template members of the header) -/

/-- The constant `D3D11_USAGE_DYNAMIC`. -/
def D3D11_USAGE_DYNAMIC : Nat := 2

/-- The constant `D3D11_CPU_ACCESS_WRITE`. -/
def D3D11_CPU_ACCESS_WRITE : Nat := 0x10000

/-- What the device answers to the one `CreateBuffer` call. -/
structure BufferWorld where
  hrCreate : HResult
  buffer : Handle
  deriving DecidableEq, Repr

/-- The description built by `CreateBuffer<T>`; `sizeofT` is `sizeof(T)`.
The product is computed in `size_t` and stored in the 32-bit `ByteWidth`. -/
def bufferDesc (sizeofT count bindFlags usage : Nat) : BufferDesc :=
  { ByteWidth := u32 (sizeofT * u32 count),
    Usage := usage,
    BindFlags := bindFlags,
    CPUAccessFlags := if usage = D3D11_USAGE_DYNAMIC then D3D11_CPU_ACCESS_WRITE else 0 }

/-- The member `CreateBuffer<T>(name, data, count, bindFlags, usage)`;
`dataNonNull` tells whether `data` is a non-null pointer. -/
def ResourceManager.CreateBuffer (s : ResourceManager) (sizeofT : Nat) (name : WString)
    (dataNonNull : Bool) (count bindFlags usage : Nat) (w : BufferWorld) : Run Bool :=
  let desc := bufferDesc sizeofT count bindFlags usage
  if s.m_device = 0 then
    { outcome := .nullDevice (.CreateBuffer desc dataNonNull), state := s, log := [] }
  else
  let l1 : List Call := [⟨.CreateBuffer desc dataNonNull, w.hrCreate⟩]
  if FAILED w.hrCreate then
    { outcome := .returned false, state := s, log := l1 }
  else
    { outcome := .returned true,
      state := { s with m_buffers := assign s.m_buffers name w.buffer },
      log := l1 }

/-- The member `GetBuffer<T>(name)`: the stored pointer, or `nullptr`. -/
def ResourceManager.GetBuffer (s : ResourceManager) (name : WString) : Handle :=
  match find s.m_buffers name with
  | some h => h
  | none => 0

/-! ## `Cleanup` -/

/-- The observable steps of `Cleanup`, in program order. -/
inductive CleanupEvent where
  | Release (resource : Handle)
  | ClearTextureMap
  | ClearVertexShaderMap
  | ClearPixelShaderMap
  | NullDeviceContext
  | NullDevice
  deriving DecidableEq, Repr

/-- The helper `SafeRelease(resource)`: calls `Release` on a non-null pointer. -/
def SafeRelease (resource : Handle) : List CleanupEvent :=
  if resource ≠ 0 then [.Release resource] else []

/-- The loop `for (auto& pair : m) SafeRelease(pair.second);`. -/
def releaseAll : Table → List CleanupEvent
  | [] => []
  | (_, v) :: rest => SafeRelease v ++ releaseAll rest

/-- The events of `Cleanup` that precede the clearing of the device references. -/
def cleanupTables (s : ResourceManager) : List CleanupEvent :=
  releaseAll s.m_textureMap ++ [.ClearTextureMap] ++
  releaseAll s.m_vertexShaderMap ++ [.ClearVertexShaderMap] ++
  releaseAll s.m_pixelShaderMap ++ [.ClearPixelShaderMap]

/-- The member `Cleanup()`: the manager afterwards and the events in order. -/
def ResourceManager.Cleanup (s : ResourceManager) : ResourceManager × List CleanupEvent :=
  ({ s with m_textureMap := [], m_vertexShaderMap := [], m_pixelShaderMap := [],
            m_deviceContext := 0, m_device := 0 },
   cleanupTables s ++ [.NullDeviceContext, .NullDevice])

/-! ## Shapes of a miss -/

/-- Some WIC stage of the world (factory, decoder, frame, converter creation,
converter initialisation, pixel copy) answers with a failure status. -/
def TextureWorld.wicFailed (w : TextureWorld) : Bool :=
  FAILED w.hrFactory || FAILED w.hrDecoder || FAILED w.hrFrame || FAILED w.hrConverter ||
    FAILED w.hrConvInit || FAILED w.hrCopyPixels

/-- The device answers texture or view creation with a failure status. -/
def TextureWorld.deviceFailed (w : TextureWorld) : Bool :=
  FAILED w.hrTexture || FAILED w.hrView

/-- The three ways a `LoadTexture` miss can end. -/
def TextureMissShape (s : ResourceManager) (key : WString) (w : TextureWorld)
    (r : Run Handle) : Prop :=
  ((∃ e, r.outcome = .threw e) ∧ r.state = s ∧ stageFailed r.log) ∨
  ((∃ st, r.outcome = .nullDevice st ∧ st.isDeviceCreate = true) ∧ r.state = s ∧
      s.m_device = 0 ∧ ¬ stageFailed r.log ∧ deviceCreateCount r.log = 0) ∨
  (r.outcome = .returned w.srv ∧
      r.state = { s with m_textureMap := assign s.m_textureMap key w.srv } ∧
      s.m_device ≠ 0 ∧ ¬ stageFailed r.log ∧ deviceCreateCount r.log = 2)

/-- The three ways a shader-load miss can end; `stored` is the manager after a
successful load. -/
def ShaderMissShape (s stored : ResourceManager) (w : ShaderWorld) (r : Run Handle) : Prop :=
  ((∃ e, r.outcome = .threw e) ∧ r.state = s ∧ stageFailed r.log) ∨
  ((∃ st, r.outcome = .nullDevice st ∧ st.isDeviceCreate = true) ∧ r.state = s ∧
      s.m_device = 0 ∧ ¬ stageFailed r.log ∧ deviceCreateCount r.log = 0) ∨
  (r.outcome = .returned w.shader ∧ r.state = stored ∧
      s.m_device ≠ 0 ∧ ¬ stageFailed r.log ∧ deviceCreateCount r.log = 1)

/-! ## Sample data -/

/-- A manager initialised with device `1` and context `2`, all tables empty. -/
def sampleManager : ResourceManager :=
  { ResourceManager.construct with m_device := 1, m_deviceContext := 2 }

/-- A world in which every texture stage succeeds, for a 2 by 2 image. -/
def textureOk : TextureWorld :=
  { hrFactory := 0, hrDecoder := 0, hrFrame := 0, hrConverter := 0, hrConvInit := 0,
    width := 2, height := 2, hrCopyPixels := 0, hrTexture := 0, texture := 10,
    hrView := 0, srv := 11 }

/-- A world in which the decoder rejects the file (a negative status). -/
def textureBadFile : TextureWorld := { textureOk with hrDecoder := -1 }

/-- A world in which compilation and shader creation succeed. -/
def shaderOk : ShaderWorld :=
  { hrCompile := 0, errorBlob := none, hrCreate := 0, shader := 21 }

/-- A world in which compilation fails with the diagnostic `"E1"`, stored
NUL-terminated in the error blob. -/
def shaderBadSource : ShaderWorld :=
  { hrCompile := -1, errorBlob := some [69, 49, 0], hrCreate := 0, shader := 0 }

/-- The handles on which `Release` is called, in the order of the calls. -/
def releasedHandles : List CleanupEvent → List Handle
  | [] => []
  | .Release h :: rest => h :: releasedHandles rest
  | _ :: rest => releasedHandles rest

/-- The non-null handles stored in a table, in iteration order. -/
def storedHandles (m : Table) : List Handle :=
  (m.map Prod.snd).filter (fun h => h != 0)

/-- An initialised manager holding one entry in each of the five tables. -/
def fullManager : ResourceManager :=
  { m_device := 1, m_deviceContext := 2,
    m_textureMap := [([116], 11)],
    m_vertexShaderMap := [([118], 21)],
    m_pixelShaderMap := [([112], 31)],
    m_buffers := [([98], 41)],
    m_inputLayouts := [([105], 51)] }

/-- A device answer: the buffer is created, with handle `42`. -/
def bufferOk : BufferWorld := { hrCreate := 0, buffer := 42 }

/-- A device answer: buffer creation is rejected. -/
def bufferRejected : BufferWorld := { hrCreate := -1, buffer := 0 }

/-- A world in which compilation fails and the compiler hands back no error
blob (the blob pointer stays null), as for a source file that cannot be read. -/
def shaderNoBlob : ShaderWorld :=
  { hrCompile := -1, errorBlob := none, hrCreate := 0, shader := 0 }

/-- A world in which compilation fails with an error blob of four bytes that
holds a NUL in its interior: `E`, NUL, `1`, NUL. -/
def shaderNulBlob : ShaderWorld :=
  { hrCompile := -1, errorBlob := some [69, 0, 49, 0], hrCreate := 0, shader := 0 }

/-- The manager reached from construction by `Initialize(1, 2)`, a successful
`LoadTexture("t")` and a successful `CreateBuffer("b", ...)`. -/
def loadedManager : ResourceManager :=
  (((ResourceManager.construct.Initialize 1 2).state.LoadTexture [116] textureOk).state.CreateBuffer
    16 [98] true 4 1 0 bufferOk).state

/-- The file path `a.hlsl`. -/
def pathA : WString := [97, 46, 104, 108, 115, 108]

/-- The entry point `VS`. -/
def entryVS : Bytes := [86, 83]

/-- The entry point `PS`. -/
def entryPS : Bytes := [80, 83]

/-- The target profile `vs_4_0`. -/
def targetVs4 : Bytes := [118, 115, 95, 52, 95, 48]

/-- The target profile `vs_5_0`. -/
def targetVs5 : Bytes := [118, 115, 95, 53, 95, 48]

/-! ## Facts about tables -/

theorem find_assign_self (m : Table) (k : WString) (v : Handle) :
    find (assign m k v) k = some v := by
  induction m with
  | nil => simp [assign, find]
  | cons p rest ih =>
    obtain ⟨k1, old⟩ := p
    by_cases h : k1 = k
    · simp [assign, find, h]
    · simp [assign, find, h, ih]

/-! ## Cache hits -/

theorem LoadTexture_hit (s : ResourceManager) (key : WString) (w : TextureWorld) (h : Handle)
    (hf : find s.m_textureMap key = some h) :
    s.LoadTexture key w = { outcome := .returned h, state := s, log := [] } := by
  simp [ResourceManager.LoadTexture, hf]

theorem LoadVertexShader_hit (s : ResourceManager) (fp : WString) (ep tg : Bytes)
    (w : ShaderWorld) (h : Handle)
    (hf : find s.m_vertexShaderMap (shaderKey fp ep) = some h) :
    s.LoadVertexShader fp ep tg w = { outcome := .returned h, state := s, log := [] } := by
  simp [ResourceManager.LoadVertexShader, hf]

theorem LoadPixelShader_hit (s : ResourceManager) (fp : WString) (ep tg : Bytes)
    (w : ShaderWorld) (h : Handle)
    (hf : find s.m_pixelShaderMap (shaderKey fp ep) = some h) :
    s.LoadPixelShader fp ep tg w = { outcome := .returned h, state := s, log := [] } := by
  simp [ResourceManager.LoadPixelShader, hf]

/-! ## The miss path of `LoadTexture` -/

theorem LoadTexture_miss (s : ResourceManager) (key : WString) (w : TextureWorld)
    (hf : find s.m_textureMap key = none) :
    TextureMissShape s key w (s.LoadTexture key w) ∧
    (s.LoadTexture key w).log.head? = some ⟨.CoCreateInstance, w.hrFactory⟩ := by
  cases h1 : FAILED w.hrFactory
  case true =>
    simp only [ResourceManager.LoadTexture, hf, h1, if_true]
    simp [TextureMissShape, stageFailed, h1]
  case false =>
  cases h2 : FAILED w.hrDecoder
  case true =>
    simp only [ResourceManager.LoadTexture, hf, h1, h2, if_true, if_false, Bool.false_eq_true]
    simp [TextureMissShape, stageFailed, h1, h2]
  case false =>
  cases h3 : FAILED w.hrFrame
  case true =>
    simp only [ResourceManager.LoadTexture, hf, h1, h2, h3, if_true, if_false,
      Bool.false_eq_true]
    simp [TextureMissShape, stageFailed, h1, h2, h3]
  case false =>
  cases h4 : FAILED w.hrConverter
  case true =>
    simp only [ResourceManager.LoadTexture, hf, h1, h2, h3, h4, if_true, if_false,
      Bool.false_eq_true]
    simp [TextureMissShape, stageFailed, h1, h2, h3, h4]
  case false =>
  cases h5 : FAILED w.hrConvInit
  case true =>
    simp only [ResourceManager.LoadTexture, hf, h1, h2, h3, h4, h5, if_true, if_false,
      Bool.false_eq_true]
    simp [TextureMissShape, stageFailed, h1, h2, h3, h4, h5]
  case false =>
  cases h6 : FAILED w.hrCopyPixels
  case true =>
    simp only [ResourceManager.LoadTexture, hf, h1, h2, h3, h4, h5, h6, if_true, if_false,
      Bool.false_eq_true]
    simp [TextureMissShape, stageFailed, h1, h2, h3, h4, h5, h6]
  case false =>
  by_cases hd : s.m_device = 0
  · simp only [ResourceManager.LoadTexture, hf, h1, h2, h3, h4, h5, h6, hd, if_true, if_false,
      Bool.false_eq_true]
    simp [TextureMissShape, stageFailed, deviceCreateCount, Stage.isDeviceCreate,
      h1, h2, h3, h4, h5, h6, hd]
  · rcases Bool.eq_false_or_eq_true (FAILED w.hrTexture) with h7 | h7
    · simp only [ResourceManager.LoadTexture, hf, h1, h2, h3, h4, h5, h6, h7, hd, if_true,
        if_false, Bool.false_eq_true]
      simp [TextureMissShape, stageFailed, h1, h2, h3, h4, h5, h6, h7]
    rcases Bool.eq_false_or_eq_true (FAILED w.hrView) with h8 | h8
    · simp only [ResourceManager.LoadTexture, hf, h1, h2, h3, h4, h5, h6, h7, h8, hd, if_true,
        if_false, Bool.false_eq_true]
      simp [TextureMissShape, stageFailed, h1, h2, h3, h4, h5, h6, h7, h8]
    · simp only [ResourceManager.LoadTexture, hf, h1, h2, h3, h4, h5, h6, h7, h8, hd, if_true,
        if_false, Bool.false_eq_true]
      simp [TextureMissShape, stageFailed, deviceCreateCount, Stage.isDeviceCreate,
        h1, h2, h3, h4, h5, h6, h7, h8, hd]

/-! ## The miss paths of the shader loaders -/

theorem LoadVertexShader_miss (s : ResourceManager) (fp : WString) (ep tg : Bytes)
    (w : ShaderWorld) (hf : find s.m_vertexShaderMap (shaderKey fp ep) = none) :
    ShaderMissShape s
      { s with m_vertexShaderMap := assign s.m_vertexShaderMap (shaderKey fp ep) w.shader } w
      (s.LoadVertexShader fp ep tg w) ∧
    (s.LoadVertexShader fp ep tg w).log.head? =
      some ⟨.D3DCompileFromFile fp ep tg, w.hrCompile⟩ := by
  rcases Bool.eq_false_or_eq_true (FAILED w.hrCompile) with h1 | h1
  · cases hb : w.errorBlob <;>
    · simp only [ResourceManager.LoadVertexShader, hf, h1, hb, if_true]
      simp [ShaderMissShape, stageFailed, h1]
  by_cases hd : s.m_device = 0
  · simp only [ResourceManager.LoadVertexShader, hf, h1, hd, if_true, if_false,
      Bool.false_eq_true]
    simp [ShaderMissShape, stageFailed, deviceCreateCount, Stage.isDeviceCreate, h1, hd]
  rcases Bool.eq_false_or_eq_true (FAILED w.hrCreate) with h2 | h2
  · simp only [ResourceManager.LoadVertexShader, hf, h1, h2, hd, if_true, if_false,
      Bool.false_eq_true]
    simp [ShaderMissShape, stageFailed, h1, h2]
  · simp only [ResourceManager.LoadVertexShader, hf, h1, h2, hd, if_true, if_false,
      Bool.false_eq_true]
    simp [ShaderMissShape, stageFailed, deviceCreateCount, Stage.isDeviceCreate, h1, h2, hd]

theorem LoadPixelShader_miss (s : ResourceManager) (fp : WString) (ep tg : Bytes)
    (w : ShaderWorld) (hf : find s.m_pixelShaderMap (shaderKey fp ep) = none) :
    ShaderMissShape s
      { s with m_pixelShaderMap := assign s.m_pixelShaderMap (shaderKey fp ep) w.shader } w
      (s.LoadPixelShader fp ep tg w) ∧
    (s.LoadPixelShader fp ep tg w).log.head? =
      some ⟨.D3DCompileFromFile fp ep tg, w.hrCompile⟩ := by
  rcases Bool.eq_false_or_eq_true (FAILED w.hrCompile) with h1 | h1
  · cases hb : w.errorBlob <;>
    · simp only [ResourceManager.LoadPixelShader, hf, h1, hb, if_true]
      simp [ShaderMissShape, stageFailed, h1]
  by_cases hd : s.m_device = 0
  · simp only [ResourceManager.LoadPixelShader, hf, h1, hd, if_true, if_false,
      Bool.false_eq_true]
    simp [ShaderMissShape, stageFailed, deviceCreateCount, Stage.isDeviceCreate, h1, hd]
  rcases Bool.eq_false_or_eq_true (FAILED w.hrCreate) with h2 | h2
  · simp only [ResourceManager.LoadPixelShader, hf, h1, h2, hd, if_true, if_false,
      Bool.false_eq_true]
    simp [ShaderMissShape, stageFailed, h1, h2]
  · simp only [ResourceManager.LoadPixelShader, hf, h1, h2, hd, if_true, if_false,
      Bool.false_eq_true]
    simp [ShaderMissShape, stageFailed, deviceCreateCount, Stage.isDeviceCreate, h1, h2, hd]

/-! ## When a stage call fails -/

/-- On a miss, a stage call of `LoadTexture` fails exactly when the world
fails a WIC stage, or the device is non-null and fails a creation. -/
theorem LoadTexture_stageFailed_iff (s : ResourceManager) (key : WString) (w : TextureWorld)
    (hf : find s.m_textureMap key = none) :
    stageFailed (s.LoadTexture key w).log ↔
      (w.wicFailed = true ∨ (s.m_device ≠ 0 ∧ w.deviceFailed = true)) := by
  rcases Bool.eq_false_or_eq_true (FAILED w.hrFactory) with h1 | h1
  · simp only [ResourceManager.LoadTexture, hf, h1, if_true]
    simp [stageFailed, TextureWorld.wicFailed, h1]
  rcases Bool.eq_false_or_eq_true (FAILED w.hrDecoder) with h2 | h2
  · simp only [ResourceManager.LoadTexture, hf, h1, h2, if_true, if_false, Bool.false_eq_true]
    simp [stageFailed, TextureWorld.wicFailed, h1, h2]
  rcases Bool.eq_false_or_eq_true (FAILED w.hrFrame) with h3 | h3
  · simp only [ResourceManager.LoadTexture, hf, h1, h2, h3, if_true, if_false,
      Bool.false_eq_true]
    simp [stageFailed, TextureWorld.wicFailed, h1, h2, h3]
  rcases Bool.eq_false_or_eq_true (FAILED w.hrConverter) with h4 | h4
  · simp only [ResourceManager.LoadTexture, hf, h1, h2, h3, h4, if_true, if_false,
      Bool.false_eq_true]
    simp [stageFailed, TextureWorld.wicFailed, h1, h2, h3, h4]
  rcases Bool.eq_false_or_eq_true (FAILED w.hrConvInit) with h5 | h5
  · simp only [ResourceManager.LoadTexture, hf, h1, h2, h3, h4, h5, if_true, if_false,
      Bool.false_eq_true]
    simp [stageFailed, TextureWorld.wicFailed, h1, h2, h3, h4, h5]
  rcases Bool.eq_false_or_eq_true (FAILED w.hrCopyPixels) with h6 | h6
  · simp only [ResourceManager.LoadTexture, hf, h1, h2, h3, h4, h5, h6, if_true, if_false,
      Bool.false_eq_true]
    simp [stageFailed, TextureWorld.wicFailed, h1, h2, h3, h4, h5, h6]
  by_cases hd : s.m_device = 0
  · simp only [ResourceManager.LoadTexture, hf, h1, h2, h3, h4, h5, h6, hd, if_true, if_false,
      Bool.false_eq_true]
    simp [stageFailed, TextureWorld.wicFailed, h1, h2, h3, h4, h5, h6]
  rcases Bool.eq_false_or_eq_true (FAILED w.hrTexture) with h7 | h7
  · simp only [ResourceManager.LoadTexture, hf, h1, h2, h3, h4, h5, h6, h7, hd, if_true,
      if_false, Bool.false_eq_true]
    simp [stageFailed, TextureWorld.wicFailed, TextureWorld.deviceFailed,
      h1, h2, h3, h4, h5, h6, h7, hd]
  rcases Bool.eq_false_or_eq_true (FAILED w.hrView) with h8 | h8
  · simp only [ResourceManager.LoadTexture, hf, h1, h2, h3, h4, h5, h6, h7, h8, hd, if_true,
      if_false, Bool.false_eq_true]
    simp [stageFailed, TextureWorld.wicFailed, TextureWorld.deviceFailed,
      h1, h2, h3, h4, h5, h6, h7, h8, hd]
  · simp only [ResourceManager.LoadTexture, hf, h1, h2, h3, h4, h5, h6, h7, h8, hd, if_true,
      if_false, Bool.false_eq_true]
    simp [stageFailed, TextureWorld.wicFailed, TextureWorld.deviceFailed,
      h1, h2, h3, h4, h5, h6, h7, h8]

/-- With a null device, a `LoadTexture` miss whose WIC stages all succeed goes
on to the device call: it neither throws nor returns. -/
theorem LoadTexture_null_device (s : ResourceManager) (key : WString) (w : TextureWorld)
    (hf : find s.m_textureMap key = none) (hd : s.m_device = 0)
    (hw : w.wicFailed = false) :
    ∃ st, (s.LoadTexture key w).outcome = .nullDevice st ∧ st.isDeviceCreate = true := by
  have hn : ¬ stageFailed (s.LoadTexture key w).log := by
    rw [LoadTexture_stageFailed_iff s key w hf]
    simp [hw, hd]
  rcases (LoadTexture_miss s key w hf).1 with ⟨_, _, hs⟩ | ⟨ho, _⟩ | ⟨_, _, hne, _⟩
  · exact absurd hs hn
  · exact ho
  · exact absurd hd hne

/-- On a miss, a stage call of `LoadVertexShader` fails exactly when
compilation fails, or the device is non-null and fails the creation. -/
theorem LoadVertexShader_stageFailed_iff (s : ResourceManager) (fp : WString)
    (ep tg : Bytes) (w : ShaderWorld)
    (hf : find s.m_vertexShaderMap (shaderKey fp ep) = none) :
    stageFailed (s.LoadVertexShader fp ep tg w).log ↔
      (FAILED w.hrCompile = true ∨ (s.m_device ≠ 0 ∧ FAILED w.hrCreate = true)) := by
  rcases Bool.eq_false_or_eq_true (FAILED w.hrCompile) with h1 | h1
  · cases hb : w.errorBlob <;>
    · simp only [ResourceManager.LoadVertexShader, hf, h1, hb, if_true]
      simp [stageFailed, h1]
  by_cases hd : s.m_device = 0
  · simp only [ResourceManager.LoadVertexShader, hf, h1, hd, if_true, if_false,
      Bool.false_eq_true]
    simp [stageFailed, h1]
  rcases Bool.eq_false_or_eq_true (FAILED w.hrCreate) with h2 | h2
  · simp only [ResourceManager.LoadVertexShader, hf, h1, h2, hd, if_true, if_false,
      Bool.false_eq_true]
    simp [stageFailed, h1, h2, hd]
  · simp only [ResourceManager.LoadVertexShader, hf, h1, h2, hd, if_true, if_false,
      Bool.false_eq_true]
    simp [stageFailed, h1, h2]

/-- On a miss, a stage call of `LoadPixelShader` fails exactly when
compilation fails, or the device is non-null and fails the creation. -/
theorem LoadPixelShader_stageFailed_iff (s : ResourceManager) (fp : WString)
    (ep tg : Bytes) (w : ShaderWorld)
    (hf : find s.m_pixelShaderMap (shaderKey fp ep) = none) :
    stageFailed (s.LoadPixelShader fp ep tg w).log ↔
      (FAILED w.hrCompile = true ∨ (s.m_device ≠ 0 ∧ FAILED w.hrCreate = true)) := by
  rcases Bool.eq_false_or_eq_true (FAILED w.hrCompile) with h1 | h1
  · cases hb : w.errorBlob <;>
    · simp only [ResourceManager.LoadPixelShader, hf, h1, hb, if_true]
      simp [stageFailed, h1]
  by_cases hd : s.m_device = 0
  · simp only [ResourceManager.LoadPixelShader, hf, h1, hd, if_true, if_false,
      Bool.false_eq_true]
    simp [stageFailed, h1]
  rcases Bool.eq_false_or_eq_true (FAILED w.hrCreate) with h2 | h2
  · simp only [ResourceManager.LoadPixelShader, hf, h1, h2, hd, if_true, if_false,
      Bool.false_eq_true]
    simp [stageFailed, h1, h2, hd]
  · simp only [ResourceManager.LoadPixelShader, hf, h1, h2, hd, if_true, if_false,
      Bool.false_eq_true]
    simp [stageFailed, h1, h2]

/-! ## A returned handle is the stored handle -/

theorem LoadTexture_returned_stored (s : ResourceManager) (key : WString) (w : TextureWorld)
    (h : Handle) (hr : (s.LoadTexture key w).outcome = .returned h) :
    find (s.LoadTexture key w).state.m_textureMap key = some h := by
  cases hf : find s.m_textureMap key with
  | some h0 =>
    rw [LoadTexture_hit s key w h0 hf] at hr ⊢
    simp only [Outcome.returned.injEq] at hr
    rw [← hr]; exact hf
  | none =>
    rcases (LoadTexture_miss s key w hf).1 with ⟨⟨e, he⟩, _, _⟩ | ⟨⟨st, he, _⟩, _⟩ |
      ⟨ho, hs, _⟩
    · rw [he] at hr; exact Outcome.noConfusion hr
    · rw [he] at hr; exact Outcome.noConfusion hr
    · rw [ho] at hr
      simp only [Outcome.returned.injEq] at hr
      rw [hs, ← hr]; exact find_assign_self _ _ _

theorem LoadVertexShader_returned_stored (s : ResourceManager) (fp : WString) (ep tg : Bytes)
    (w : ShaderWorld) (h : Handle)
    (hr : (s.LoadVertexShader fp ep tg w).outcome = .returned h) :
    find (s.LoadVertexShader fp ep tg w).state.m_vertexShaderMap (shaderKey fp ep) = some h := by
  cases hf : find s.m_vertexShaderMap (shaderKey fp ep) with
  | some h0 =>
    rw [LoadVertexShader_hit s fp ep tg w h0 hf] at hr ⊢
    simp only [Outcome.returned.injEq] at hr
    rw [← hr]; exact hf
  | none =>
    rcases (LoadVertexShader_miss s fp ep tg w hf).1 with ⟨⟨e, he⟩, _, _⟩ |
      ⟨⟨st, he, _⟩, _⟩ | ⟨ho, hs, _⟩
    · rw [he] at hr; exact Outcome.noConfusion hr
    · rw [he] at hr; exact Outcome.noConfusion hr
    · rw [ho] at hr
      simp only [Outcome.returned.injEq] at hr
      rw [hs, ← hr]; exact find_assign_self _ _ _

theorem LoadPixelShader_returned_stored (s : ResourceManager) (fp : WString) (ep tg : Bytes)
    (w : ShaderWorld) (h : Handle)
    (hr : (s.LoadPixelShader fp ep tg w).outcome = .returned h) :
    find (s.LoadPixelShader fp ep tg w).state.m_pixelShaderMap (shaderKey fp ep) = some h := by
  cases hf : find s.m_pixelShaderMap (shaderKey fp ep) with
  | some h0 =>
    rw [LoadPixelShader_hit s fp ep tg w h0 hf] at hr ⊢
    simp only [Outcome.returned.injEq] at hr
    rw [← hr]; exact hf
  | none =>
    rcases (LoadPixelShader_miss s fp ep tg w hf).1 with ⟨⟨e, he⟩, _, _⟩ |
      ⟨⟨st, he, _⟩, _⟩ | ⟨ho, hs, _⟩
    · rw [he] at hr; exact Outcome.noConfusion hr
    · rw [he] at hr; exact Outcome.noConfusion hr
    · rw [ho] at hr
      simp only [Outcome.returned.injEq] at hr
      rw [hs, ← hr]; exact find_assign_self _ _ _

theorem find_assign_ne (m : Table) (k k2 : WString) (v : Handle) (hne : k2 ≠ k) :
    find (assign m k v) k2 = find m k2 := by
  induction m with
  | nil => simp [assign, find, Ne.symm hne]
  | cons p rest ih =>
    obtain ⟨k1, old⟩ := p
    by_cases h : k1 = k
    · subst h
      simp [assign, find, Ne.symm hne]
    · by_cases h2 : k1 = k2
      · subst h2
        simp [assign, find, h]
      · simp [assign, find, h, h2, ih]

/-! ## Facts about `Cleanup` -/

theorem releasedHandles_append (a b : List CleanupEvent) :
    releasedHandles (a ++ b) = releasedHandles a ++ releasedHandles b := by
  induction a with
  | nil => rfl
  | cons e rest ih => cases e <;> simp [releasedHandles, ih]

theorem releasedHandles_releaseAll (m : Table) :
    releasedHandles (releaseAll m) = storedHandles m := by
  induction m with
  | nil => rfl
  | cons p rest ih =>
    obtain ⟨k, v⟩ := p
    unfold storedHandles at ih ⊢
    by_cases hv : v = 0
    · simp [releaseAll, SafeRelease, hv, releasedHandles_append, releasedHandles, ih]
    · simp [releaseAll, SafeRelease, hv, releasedHandles_append, releasedHandles, ih]

theorem releaseAll_only_releases (m : Table) (e : CleanupEvent) (he : e ∈ releaseAll m) :
    ∃ h, h ≠ 0 ∧ e = .Release h := by
  induction m with
  | nil => simp [releaseAll] at he
  | cons p rest ih =>
    obtain ⟨k, v⟩ := p
    simp only [releaseAll, List.mem_append] at he
    rcases he with he | he
    · unfold SafeRelease at he
      split_ifs at he with hv
      · simp only [List.mem_singleton] at he
        exact ⟨v, hv, he⟩
      · simp at he
    · exact ih he

/-! ## Facts about C strings -/

theorem cstr_terminated (text rest : Bytes) (h : 0 ∉ text) :
    cstr (text ++ 0 :: rest) = text := by
  induction text with
  | nil => simp [cstr]
  | cons b t ih =>
    have hb : b ≠ 0 := fun e => h (by simp [e])
    have ht : 0 ∉ t := fun e => h (by simp [e])
    have := ih ht
    unfold cstr at this ⊢
    simp [List.takeWhile_cons, hb, this]

/-! ## Facts about the shader key -/

theorem widen_injective : Function.Injective widen := by
  intro a b h
  unfold widen at h
  split_ifs at h <;> omega

theorem widen_eq_colon (b : Nat) : widen b = 58 ↔ b = 58 := by
  unfold widen
  split_ifs <;> omega

theorem colon_not_mem_widened (ep : Bytes) (h : 58 ∉ ep) : 58 ∉ ep.map widen := by
  intro hm
  rcases List.mem_map.mp hm with ⟨b, hb, hw⟩
  rw [(widen_eq_colon b).mp hw] at hb
  exact h hb

/-- A list is split in one way only at the last occurrence of a separator. -/
theorem append_sep_inj (a : Nat) :
    ∀ (l1 l2 r1 r2 : List Nat), a ∉ r1 → a ∉ r2 →
      l1 ++ a :: r1 = l2 ++ a :: r2 → l1 = l2 ∧ r1 = r2
  | [], [], r1, r2, _, _, h => by
    simp only [List.nil_append, List.cons.injEq, true_and] at h
    exact ⟨rfl, h⟩
  | [], b :: l2, r1, r2, h1, _, h => by
    simp only [List.nil_append, List.cons_append, List.cons.injEq] at h
    exact absurd (by rw [h.2]; simp) h1
  | c :: l1, [], r1, r2, _, h2, h => by
    simp only [List.nil_append, List.cons_append, List.cons.injEq] at h
    exact absurd (by rw [← h.2]; simp) h2
  | c :: l1, b :: l2, r1, r2, h1, h2, h => by
    simp only [List.cons_append, List.cons.injEq] at h
    obtain ⟨e1, e2⟩ := append_sep_inj a l1 l2 r1 r2 h1 h2 h.2
    exact ⟨by rw [h.1, e1], e2⟩

theorem shaderKey_eq_iff (fp fp2 : WString) (ep ep2 : Bytes)
    (h1 : 58 ∉ ep) (h2 : 58 ∉ ep2) :
    shaderKey fp ep = shaderKey fp2 ep2 ↔ fp = fp2 ∧ ep = ep2 := by
  constructor
  · intro h
    unfold shaderKey at h
    simp only [List.append_assoc, List.singleton_append] at h
    obtain ⟨e1, e2⟩ := append_sep_inj 58 fp fp2 _ _ (colon_not_mem_widened ep h1)
      (colon_not_mem_widened ep2 h2) h
    exact ⟨e1, List.map_injective_iff.mpr widen_injective e2⟩
  · rintro ⟨rfl, rfl⟩
    rfl

/-- The outcome and the manager after a vertex-shader load do not depend on
the target profile. -/
theorem LoadVertexShader_target_irrelevant (s : ResourceManager) (fp : WString)
    (ep tg tg2 : Bytes) (w : ShaderWorld) :
    (s.LoadVertexShader fp ep tg w).outcome = (s.LoadVertexShader fp ep tg2 w).outcome ∧
    (s.LoadVertexShader fp ep tg w).state = (s.LoadVertexShader fp ep tg2 w).state := by
  cases hf : find s.m_vertexShaderMap (shaderKey fp ep) with
  | some h0 =>
    rw [LoadVertexShader_hit s fp ep tg w h0 hf, LoadVertexShader_hit s fp ep tg2 w h0 hf]
    exact ⟨rfl, rfl⟩
  | none =>
    rcases Bool.eq_false_or_eq_true (FAILED w.hrCompile) with h1 | h1
    · cases hb : w.errorBlob <;>
      · simp only [ResourceManager.LoadVertexShader, hf, h1, hb, if_true]
        exact ⟨trivial, trivial⟩
    by_cases hd : s.m_device = 0
    · simp only [ResourceManager.LoadVertexShader, hf, h1, hd, if_true, if_false,
        Bool.false_eq_true]
      exact ⟨trivial, trivial⟩
    rcases Bool.eq_false_or_eq_true (FAILED w.hrCreate) with h2 | h2
    · simp only [ResourceManager.LoadVertexShader, hf, h1, h2, hd, if_true, if_false,
        Bool.false_eq_true]
      exact ⟨trivial, trivial⟩
    · simp only [ResourceManager.LoadVertexShader, hf, h1, h2, hd, if_true, if_false,
        Bool.false_eq_true]
      exact ⟨trivial, trivial⟩

/-- The outcome and the manager after a pixel-shader load do not depend on
the target profile. -/
theorem LoadPixelShader_target_irrelevant (s : ResourceManager) (fp : WString)
    (ep tg tg2 : Bytes) (w : ShaderWorld) :
    (s.LoadPixelShader fp ep tg w).outcome = (s.LoadPixelShader fp ep tg2 w).outcome ∧
    (s.LoadPixelShader fp ep tg w).state = (s.LoadPixelShader fp ep tg2 w).state := by
  cases hf : find s.m_pixelShaderMap (shaderKey fp ep) with
  | some h0 =>
    rw [LoadPixelShader_hit s fp ep tg w h0 hf, LoadPixelShader_hit s fp ep tg2 w h0 hf]
    exact ⟨rfl, rfl⟩
  | none =>
    rcases Bool.eq_false_or_eq_true (FAILED w.hrCompile) with h1 | h1
    · cases hb : w.errorBlob <;>
      · simp only [ResourceManager.LoadPixelShader, hf, h1, hb, if_true]
        exact ⟨trivial, trivial⟩
    by_cases hd : s.m_device = 0
    · simp only [ResourceManager.LoadPixelShader, hf, h1, hd, if_true, if_false,
        Bool.false_eq_true]
      exact ⟨trivial, trivial⟩
    rcases Bool.eq_false_or_eq_true (FAILED w.hrCreate) with h2 | h2
    · simp only [ResourceManager.LoadPixelShader, hf, h1, h2, hd, if_true, if_false,
        Bool.false_eq_true]
      exact ⟨trivial, trivial⟩
    · simp only [ResourceManager.LoadPixelShader, hf, h1, h2, hd, if_true, if_false,
        Bool.false_eq_true]
      exact ⟨trivial, trivial⟩

/-! ## Claims -/

/-- C1 (idempotence of load-or-fetch): when `LoadTexture`, `LoadVertexShader`
or `LoadPixelShader` returns a handle `h`, an immediately following call with
the same arguments, whatever the world would answer, returns the same `h`,
leaves the whole manager state unchanged and issues no pipeline call. -/
theorem C1_load_idempotent (s : ResourceManager) (key fp : WString) (ep tg : Bytes)
    (wt wt2 : TextureWorld) (ws ws2 : ShaderWorld) (h : Handle) :
    ((s.LoadTexture key wt).outcome = .returned h →
      (s.LoadTexture key wt).state.LoadTexture key wt2 =
        { outcome := .returned h, state := (s.LoadTexture key wt).state, log := [] }) ∧
    ((s.LoadVertexShader fp ep tg ws).outcome = .returned h →
      (s.LoadVertexShader fp ep tg ws).state.LoadVertexShader fp ep tg ws2 =
        { outcome := .returned h, state := (s.LoadVertexShader fp ep tg ws).state,
          log := [] }) ∧
    ((s.LoadPixelShader fp ep tg ws).outcome = .returned h →
      (s.LoadPixelShader fp ep tg ws).state.LoadPixelShader fp ep tg ws2 =
        { outcome := .returned h, state := (s.LoadPixelShader fp ep tg ws).state,
          log := [] }) :=
  ⟨fun hr => LoadTexture_hit _ key wt2 h (LoadTexture_returned_stored s key wt h hr),
   fun hr => LoadVertexShader_hit _ fp ep tg ws2 h
     (LoadVertexShader_returned_stored s fp ep tg ws h hr),
   fun hr => LoadPixelShader_hit _ fp ep tg ws2 h
     (LoadPixelShader_returned_stored s fp ep tg ws h hr)⟩

/-- The witness of C1: a first load of each kind succeeds on an initialised
manager, and the repeated load, even in a world where the pipeline would now
fail, is a pure hit. -/
theorem C1_load_idempotent_witness :
    (sampleManager.LoadTexture [97] textureOk).outcome = .returned 11 ∧
    (sampleManager.LoadVertexShader [97] [98] [99] shaderOk).outcome = .returned 21 ∧
    (sampleManager.LoadPixelShader [97] [98] [99] shaderOk).outcome = .returned 21 ∧
    (sampleManager.LoadTexture [97] textureOk).state.LoadTexture [97] textureBadFile =
      { outcome := .returned 11, state := (sampleManager.LoadTexture [97] textureOk).state,
        log := [] } ∧
    (sampleManager.LoadVertexShader [97] [98] [99] shaderOk).state.LoadVertexShader
        [97] [98] [99] shaderBadSource =
      { outcome := .returned 21,
        state := (sampleManager.LoadVertexShader [97] [98] [99] shaderOk).state, log := [] } ∧
    (sampleManager.LoadPixelShader [97] [98] [99] shaderOk).state.LoadPixelShader
        [97] [98] [99] shaderBadSource =
      { outcome := .returned 21,
        state := (sampleManager.LoadPixelShader [97] [98] [99] shaderOk).state, log := [] } :=
  ⟨by decide, by decide, by decide,
   (C1_load_idempotent sampleManager [97] [97] [98] [99] textureOk textureBadFile
      shaderOk shaderBadSource 11).1 (by decide),
   (C1_load_idempotent sampleManager [97] [97] [98] [99] textureOk textureBadFile
      shaderOk shaderBadSource 21).2.1 (by decide),
   (C1_load_idempotent sampleManager [97] [97] [98] [99] textureOk textureBadFile
      shaderOk shaderBadSource 21).2.2 (by decide)⟩

/-- C2 (failure leaves no trace): for a key absent from its table, when a
stage call issued by `LoadTexture`, `LoadVertexShader` or `LoadPixelShader`
returns a failure status, the call throws, the manager state (every table) is
what it was, the key is still absent, the entry count is unchanged, and a
later call for the same key starts the pipeline again from its first stage. -/
theorem C2_failure_leaves_no_trace (s : ResourceManager) (key fp : WString) (ep tg : Bytes)
    (wt wt2 : TextureWorld) (ws ws2 : ShaderWorld) :
    (find s.m_textureMap key = none → stageFailed (s.LoadTexture key wt).log →
      (∃ e, (s.LoadTexture key wt).outcome = .threw e) ∧
      (s.LoadTexture key wt).state = s ∧
      find (s.LoadTexture key wt).state.m_textureMap key = none ∧
      (s.LoadTexture key wt).state.m_textureMap.length = s.m_textureMap.length ∧
      ((s.LoadTexture key wt).state.LoadTexture key wt2).log.head? =
        some ⟨.CoCreateInstance, wt2.hrFactory⟩) ∧
    (find s.m_vertexShaderMap (shaderKey fp ep) = none →
      stageFailed (s.LoadVertexShader fp ep tg ws).log →
      (∃ e, (s.LoadVertexShader fp ep tg ws).outcome = .threw e) ∧
      (s.LoadVertexShader fp ep tg ws).state = s ∧
      find (s.LoadVertexShader fp ep tg ws).state.m_vertexShaderMap (shaderKey fp ep) = none ∧
      (s.LoadVertexShader fp ep tg ws).state.m_vertexShaderMap.length =
        s.m_vertexShaderMap.length ∧
      ((s.LoadVertexShader fp ep tg ws).state.LoadVertexShader fp ep tg ws2).log.head? =
        some ⟨.D3DCompileFromFile fp ep tg, ws2.hrCompile⟩) ∧
    (find s.m_pixelShaderMap (shaderKey fp ep) = none →
      stageFailed (s.LoadPixelShader fp ep tg ws).log →
      (∃ e, (s.LoadPixelShader fp ep tg ws).outcome = .threw e) ∧
      (s.LoadPixelShader fp ep tg ws).state = s ∧
      find (s.LoadPixelShader fp ep tg ws).state.m_pixelShaderMap (shaderKey fp ep) = none ∧
      (s.LoadPixelShader fp ep tg ws).state.m_pixelShaderMap.length =
        s.m_pixelShaderMap.length ∧
      ((s.LoadPixelShader fp ep tg ws).state.LoadPixelShader fp ep tg ws2).log.head? =
        some ⟨.D3DCompileFromFile fp ep tg, ws2.hrCompile⟩) := by
  refine ⟨fun hf hfail => ?_, fun hf hfail => ?_, fun hf hfail => ?_⟩
  · rcases (LoadTexture_miss s key wt hf).1 with ⟨he, hs, _⟩ | ⟨_, _, _, hn, _⟩ |
      ⟨_, _, _, hn, _⟩
    · rw [hs]
      exact ⟨he, rfl, hf, rfl, (LoadTexture_miss s key wt2 hf).2⟩
    · exact absurd hfail hn
    · exact absurd hfail hn
  · rcases (LoadVertexShader_miss s fp ep tg ws hf).1 with ⟨he, hs, _⟩ | ⟨_, _, _, hn, _⟩ |
      ⟨_, _, _, hn, _⟩
    · rw [hs]
      exact ⟨he, rfl, hf, rfl, (LoadVertexShader_miss s fp ep tg ws2 hf).2⟩
    · exact absurd hfail hn
    · exact absurd hfail hn
  · rcases (LoadPixelShader_miss s fp ep tg ws hf).1 with ⟨he, hs, _⟩ | ⟨_, _, _, hn, _⟩ |
      ⟨_, _, _, hn, _⟩
    · rw [hs]
      exact ⟨he, rfl, hf, rfl, (LoadPixelShader_miss s fp ep tg ws2 hf).2⟩
    · exact absurd hfail hn
    · exact absurd hfail hn

/-- The witness of C2: on an initialised manager with empty tables the decoder
rejects the texture file and the compiler rejects the shader source; the
conclusions of C2 hold for all three loaders. -/
theorem C2_failure_leaves_no_trace_witness :
    (find sampleManager.m_textureMap [97] = none ∧
      stageFailed (sampleManager.LoadTexture [97] textureBadFile).log ∧
      stageFailed (sampleManager.LoadVertexShader [97] [98] [99] shaderBadSource).log ∧
      stageFailed (sampleManager.LoadPixelShader [97] [98] [99] shaderBadSource).log) ∧
    ((∃ e, (sampleManager.LoadTexture [97] textureBadFile).outcome = .threw e) ∧
      (sampleManager.LoadTexture [97] textureBadFile).state = sampleManager ∧
      find (sampleManager.LoadTexture [97] textureBadFile).state.m_textureMap [97] = none ∧
      (sampleManager.LoadTexture [97] textureBadFile).state.m_textureMap.length =
        sampleManager.m_textureMap.length ∧
      ((sampleManager.LoadTexture [97] textureBadFile).state.LoadTexture [97] textureOk).log.head?
        = some ⟨.CoCreateInstance, textureOk.hrFactory⟩) ∧
    (∃ e, (sampleManager.LoadVertexShader [97] [98] [99] shaderBadSource).outcome = .threw e) ∧
    (∃ e, (sampleManager.LoadPixelShader [97] [98] [99] shaderBadSource).outcome = .threw e) :=
  ⟨⟨by decide, ⟨⟨.CreateDecoderFromFilename [97], -1⟩, by decide, by decide⟩,
    ⟨⟨.D3DCompileFromFile [97] [98] [99], -1⟩, by decide, by decide⟩,
    ⟨⟨.D3DCompileFromFile [97] [98] [99], -1⟩, by decide, by decide⟩⟩,
   (C2_failure_leaves_no_trace sampleManager [97] [97] [98] [99] textureBadFile textureOk
      shaderBadSource shaderOk).1 (by decide)
      ⟨⟨.CreateDecoderFromFilename [97], -1⟩, by decide, by decide⟩,
   ((C2_failure_leaves_no_trace sampleManager [97] [97] [98] [99] textureBadFile textureOk
      shaderBadSource shaderOk).2.1 (by decide)
      ⟨⟨.D3DCompileFromFile [97] [98] [99], -1⟩, by decide, by decide⟩).1,
   ((C2_failure_leaves_no_trace sampleManager [97] [97] [98] [99] textureBadFile textureOk
      shaderBadSource shaderOk).2.2 (by decide)
      ⟨⟨.D3DCompileFromFile [97] [98] [99], -1⟩, by decide, by decide⟩).1⟩

/-- C9 (initialisation rejects invalid handles atomically): `Initialize`
throws exactly when the device or the context is null; when it throws the
manager is unchanged; when it returns, the stored references are the supplied
ones and every table is unchanged. -/
theorem C9_initialize_atomic (s : ResourceManager) (device context : Handle) :
    ((∃ e, (s.Initialize device context).outcome = .threw e) ↔ (device = 0 ∨ context = 0)) ∧
    ((device = 0 ∨ context = 0) → (s.Initialize device context).state = s) ∧
    (¬ (device = 0 ∨ context = 0) →
      (s.Initialize device context).outcome = .returned () ∧
      (s.Initialize device context).state.m_device = device ∧
      (s.Initialize device context).state.m_deviceContext = context ∧
      (s.Initialize device context).state.m_textureMap = s.m_textureMap ∧
      (s.Initialize device context).state.m_vertexShaderMap = s.m_vertexShaderMap ∧
      (s.Initialize device context).state.m_pixelShaderMap = s.m_pixelShaderMap ∧
      (s.Initialize device context).state.m_buffers = s.m_buffers ∧
      (s.Initialize device context).state.m_inputLayouts = s.m_inputLayouts) := by
  by_cases h : device = 0 ∨ context = 0
  · simp [ResourceManager.Initialize, h]
  · simp [ResourceManager.Initialize, h]

/-- The witness of C9: a null context is rejected and leaves the manager as
it was; device `1` with context `2` is accepted and stored. -/
theorem C9_initialize_atomic_witness :
    ((1 = 0 ∨ 0 = 0) ∧ (sampleManager.Initialize 1 0).state = sampleManager) ∧
    (¬ (1 = 0 ∨ 2 = 0) ∧
      (ResourceManager.construct.Initialize 1 2).outcome = .returned () ∧
      (ResourceManager.construct.Initialize 1 2).state.m_device = 1 ∧
      (ResourceManager.construct.Initialize 1 2).state.m_deviceContext = 2) :=
  ⟨⟨by decide, (C9_initialize_atomic sampleManager 1 0).2.1 (by decide)⟩,
   ⟨by decide,
    ((C9_initialize_atomic ResourceManager.construct 1 2).2.2 (by decide)).1,
    ((C9_initialize_atomic ResourceManager.construct 1 2).2.2 (by decide)).2.1,
    ((C9_initialize_atomic ResourceManager.construct 1 2).2.2 (by decide)).2.2.1⟩⟩

/-- C4 as the code has it (shader key derivation): the table key of
`LoadVertexShader` and `LoadPixelShader` is built from the file path and the
entry point only, so the outcome and the manager after a load are the same
for every target profile; and when neither entry point contains a colon, two
requests have the same key exactly when their file paths and their entry
points are equal. -/
theorem C4_shader_key_path_and_entry (s : ResourceManager) (fp fp2 : WString)
    (ep ep2 tg tg2 : Bytes) (w : ShaderWorld) (h1 : 58 ∉ ep) (h2 : 58 ∉ ep2) :
    (shaderKey fp ep = shaderKey fp2 ep2 ↔ fp = fp2 ∧ ep = ep2) ∧
    (s.LoadVertexShader fp ep tg w).outcome = (s.LoadVertexShader fp ep tg2 w).outcome ∧
    (s.LoadVertexShader fp ep tg w).state = (s.LoadVertexShader fp ep tg2 w).state ∧
    (s.LoadPixelShader fp ep tg w).outcome = (s.LoadPixelShader fp ep tg2 w).outcome ∧
    (s.LoadPixelShader fp ep tg w).state = (s.LoadPixelShader fp ep tg2 w).state :=
  ⟨shaderKey_eq_iff fp fp2 ep ep2 h1 h2,
   (LoadVertexShader_target_irrelevant s fp ep tg tg2 w).1,
   (LoadVertexShader_target_irrelevant s fp ep tg tg2 w).2,
   (LoadPixelShader_target_irrelevant s fp ep tg tg2 w).1,
   (LoadPixelShader_target_irrelevant s fp ep tg tg2 w).2⟩

/-- The witness of C4: the requests `("a.hlsl", "VS")` and `("a.hlsl", "PS")`,
whose entry points hold no colon, have different keys. -/
theorem C4_shader_key_path_and_entry_witness :
    (58 ∉ entryVS ∧ 58 ∉ entryPS) ∧
    (shaderKey pathA entryVS = shaderKey pathA entryPS ↔ pathA = pathA ∧ entryVS = entryPS) ∧
    shaderKey pathA entryVS ≠ shaderKey pathA entryPS :=
  ⟨⟨by decide, by decide⟩,
   (C4_shader_key_path_and_entry sampleManager pathA pathA entryVS entryPS targetVs4 targetVs5
      shaderOk (by decide) (by decide)).1,
   fun h => absurd ((C4_shader_key_path_and_entry sampleManager pathA pathA entryVS entryPS
      targetVs4 targetVs5 shaderOk (by decide) (by decide)).1.mp h).2 (by decide)⟩

/-- C4 as stated fails: two requests that differ only in the target profile
(`vs_4_0` against `vs_5_0`) have the same key, and the second one is served
from the cache entry of the first without any compilation; and the requests
`("a:b", "c")` and `("a", "b:c")`, different in path and entry point, have
the same key. -/
theorem C4_counterexample :
    ((pathA, entryVS, targetVs4) ≠ (pathA, entryVS, targetVs5) ∧
      shaderKey pathA entryVS = shaderKey pathA entryVS ∧
      (sampleManager.LoadVertexShader pathA entryVS targetVs4 shaderOk).state.LoadVertexShader
          pathA entryVS targetVs5 shaderBadSource =
        { outcome := .returned 21,
          state := (sampleManager.LoadVertexShader pathA entryVS targetVs4 shaderOk).state,
          log := [] } ∧
      (sampleManager.LoadPixelShader pathA entryVS targetVs4 shaderOk).state.LoadPixelShader
          pathA entryVS targetVs5 shaderBadSource =
        { outcome := .returned 21,
          state := (sampleManager.LoadPixelShader pathA entryVS targetVs4 shaderOk).state,
          log := [] }) ∧
    ((([97, 58, 98] : WString), ([99] : Bytes)) ≠ (([97] : WString), ([98, 58, 99] : Bytes)) ∧
      shaderKey [97, 58, 98] [99] = shaderKey [97] [98, 58, 99]) := by
  decide

/-- What `Cleanup` does: it calls `Release` on every non-null handle stored
in the texture, vertex-shader and pixel-shader tables, in table order, and
clears these three tables, all before it nulls the device context and the
device; afterwards the three tables are empty and both references are null.
It neither reads nor writes the buffer and input-layout tables. -/
theorem Cleanup_three_tables (s : ResourceManager) :
    s.Cleanup.2 = cleanupTables s ++ [.NullDeviceContext, .NullDevice] ∧
    CleanupEvent.NullDeviceContext ∉ cleanupTables s ∧
    CleanupEvent.NullDevice ∉ cleanupTables s ∧
    CleanupEvent.ClearTextureMap ∈ cleanupTables s ∧
    CleanupEvent.ClearVertexShaderMap ∈ cleanupTables s ∧
    CleanupEvent.ClearPixelShaderMap ∈ cleanupTables s ∧
    releasedHandles s.Cleanup.2 =
      storedHandles s.m_textureMap ++ storedHandles s.m_vertexShaderMap ++
        storedHandles s.m_pixelShaderMap ∧
    s.Cleanup.1.m_textureMap = [] ∧
    s.Cleanup.1.m_vertexShaderMap = [] ∧
    s.Cleanup.1.m_pixelShaderMap = [] ∧
    s.Cleanup.1.m_device = 0 ∧
    s.Cleanup.1.m_deviceContext = 0 ∧
    s.Cleanup.1.m_buffers = s.m_buffers ∧
    s.Cleanup.1.m_inputLayouts = s.m_inputLayouts := by
  have hnot : ∀ e : CleanupEvent, (∀ h, e ≠ .Release h) → e ≠ .ClearTextureMap →
      e ≠ .ClearVertexShaderMap → e ≠ .ClearPixelShaderMap → e ∉ cleanupTables s := by
    intro e h0 h1 h2 h3 hm
    simp only [cleanupTables, List.mem_append, List.mem_singleton] at hm
    rcases hm with (((((hm | hm) | hm) | hm) | hm) | hm)
    · obtain ⟨h, _, rfl⟩ := releaseAll_only_releases _ e hm
      exact h0 h rfl
    · exact h1 hm
    · obtain ⟨h, _, rfl⟩ := releaseAll_only_releases _ e hm
      exact h0 h rfl
    · exact h2 hm
    · obtain ⟨h, _, rfl⟩ := releaseAll_only_releases _ e hm
      exact h0 h rfl
    · exact h3 hm
  refine ⟨rfl, ?_, ?_, ?_, ?_, ?_, ?_, rfl, rfl, rfl, rfl, rfl, rfl, rfl⟩
  · exact hnot _ (fun _ => by simp) (by simp) (by simp) (by simp)
  · exact hnot _ (fun _ => by simp) (by simp) (by simp) (by simp)
  · simp [cleanupTables]
  · simp [cleanupTables]
  · simp [cleanupTables]
  · simp [ResourceManager.Cleanup, cleanupTables, releasedHandles_append,
      releasedHandles_releaseAll, releasedHandles]

/-- C5 at the failing input: after `Initialize(1, 2)`, a successful
`LoadTexture("t")` and a successful `CreateBuffer("b", ...)`, the buffer
table holds `"b"` with handle `42`. `Cleanup` releases the texture handle and
clears the three tables of the loaders before it nulls both references, but
it issues no `Release` for the buffer and the buffer entry is still stored
when the device reference is already null. -/
theorem C5_buffer_survives_cleanup :
    (ResourceManager.construct.Initialize 1 2).outcome = .returned () ∧
    ((ResourceManager.construct.Initialize 1 2).state.LoadTexture [116] textureOk).outcome =
      .returned 11 ∧
    (((ResourceManager.construct.Initialize 1 2).state.LoadTexture [116] textureOk).state.CreateBuffer
      16 [98] true 4 1 0 bufferOk).outcome = .returned true ∧
    loadedManager.m_textureMap = [([116], 11)] ∧
    loadedManager.GetBuffer [98] = 42 ∧
    loadedManager.Cleanup.2 =
      [.Release 11, .ClearTextureMap, .ClearVertexShaderMap, .ClearPixelShaderMap,
       .NullDeviceContext, .NullDevice] ∧
    CleanupEvent.Release 42 ∉ loadedManager.Cleanup.2 ∧
    loadedManager.Cleanup.1.m_textureMap = [] ∧
    loadedManager.Cleanup.1.m_device = 0 ∧
    loadedManager.Cleanup.1.m_deviceContext = 0 ∧
    loadedManager.Cleanup.1.m_buffers = [([98], 42)] ∧
    loadedManager.Cleanup.1.GetBuffer [98] = 42 := by
  decide

/-- C6 at the failing inputs: on a manager whose device is null (freshly
constructed, or after `Cleanup`) with every stage before the device
succeeding, each loader goes on to the device create-call through the null
device instead of throwing. -/
theorem C6_null_device_reached :
    (ResourceManager.construct.LoadTexture [97] textureOk).outcome =
      .nullDevice (.CreateTexture2D 2 2 8) ∧
    (ResourceManager.construct.LoadVertexShader pathA entryVS targetVs5 shaderOk).outcome =
      .nullDevice .CreateVertexShader ∧
    (ResourceManager.construct.LoadPixelShader pathA entryPS targetVs5 shaderOk).outcome =
      .nullDevice .CreatePixelShader ∧
    fullManager.Cleanup.1.m_device = 0 ∧
    (fullManager.Cleanup.1.LoadTexture [116] textureOk).outcome =
      .nullDevice (.CreateTexture2D 2 2 8) ∧
    (ResourceManager.construct.Initialize 0 2).state.m_device = 0 ∧
    ((ResourceManager.construct.Initialize 0 2).state.LoadTexture [97] textureOk).outcome =
      .nullDevice (.CreateTexture2D 2 2 8) := by
  decide

/-- C7 as the code has it (buffers are created and replaced): with a non-null
device, `CreateBuffer` issues exactly one device create-call whether or not
`name` is already in the buffer table; when the device accepts, it returns
true, the handle stored for `name` is the newly created one and the handle of
every other name is unchanged; when the device rejects, it returns false and
the manager is unchanged. -/
theorem C7_create_buffer_replaces (s : ResourceManager) (sizeofT : Nat) (name other : WString)
    (dataNonNull : Bool) (count bindFlags usage : Nat) (w : BufferWorld)
    (hd : s.m_device ≠ 0) :
    deviceCreateCount (s.CreateBuffer sizeofT name dataNonNull count bindFlags usage w).log = 1 ∧
    (FAILED w.hrCreate = false →
      (s.CreateBuffer sizeofT name dataNonNull count bindFlags usage w).outcome =
        .returned true ∧
      (s.CreateBuffer sizeofT name dataNonNull count bindFlags usage w).state.GetBuffer name =
        w.buffer ∧
      (other ≠ name →
        (s.CreateBuffer sizeofT name dataNonNull count bindFlags usage w).state.GetBuffer other =
          s.GetBuffer other)) ∧
    (FAILED w.hrCreate = true →
      (s.CreateBuffer sizeofT name dataNonNull count bindFlags usage w).outcome =
        .returned false ∧
      (s.CreateBuffer sizeofT name dataNonNull count bindFlags usage w).state = s) := by
  rcases Bool.eq_false_or_eq_true (FAILED w.hrCreate) with hf | hf
  · simp [ResourceManager.CreateBuffer, hd, hf, deviceCreateCount, Stage.isDeviceCreate]
  · refine ⟨by simp [ResourceManager.CreateBuffer, hd, hf, deviceCreateCount,
      Stage.isDeviceCreate], fun _ => ⟨?_, ?_, fun hne => ?_⟩, fun h => ?_⟩
    · simp [ResourceManager.CreateBuffer, hd, hf]
    · simp [ResourceManager.CreateBuffer, hd, hf, ResourceManager.GetBuffer, find_assign_self]
    · simp [ResourceManager.CreateBuffer, hd, hf, ResourceManager.GetBuffer,
        find_assign_ne _ _ _ _ hne]
    · rw [hf] at h
      exact absurd h (by decide)

/-- The witness of C7: on an initialised manager whose buffer table already
holds `"b"`, an accepted `CreateBuffer("b", ...)` issues one create-call and
replaces the stored handle, and a rejected one leaves the manager as it was. -/
theorem C7_create_buffer_replaces_witness :
    fullManager.m_device ≠ 0 ∧
    deviceCreateCount (fullManager.CreateBuffer 16 [98] true 4 1 0 bufferOk).log = 1 ∧
    (fullManager.CreateBuffer 16 [98] true 4 1 0 bufferOk).state.GetBuffer [98] = 42 ∧
    (fullManager.CreateBuffer 16 [98] true 4 1 0 bufferRejected).state = fullManager :=
  ⟨by decide,
   (C7_create_buffer_replaces fullManager 16 [98] [99] true 4 1 0 bufferOk (by decide)).1,
   ((C7_create_buffer_replaces fullManager 16 [98] [99] true 4 1 0 bufferOk
      (by decide)).2.1 (by decide)).2.1,
   ((C7_create_buffer_replaces fullManager 16 [98] [99] true 4 1 0 bufferRejected
      (by decide)).2.2 (by decide)).2⟩

/-- C7 as stated fails: `"b"` is present in the buffer table with handle `41`,
yet `CreateBuffer("b", ...)` issues a device create-call and the handle that
`GetBuffer("b")` returns changes from `41` to `42`. -/
theorem C7_counterexample :
    find fullManager.m_buffers [98] = some 41 ∧
    fullManager.GetBuffer [98] = 41 ∧
    deviceCreateCount (fullManager.CreateBuffer 16 [98] true 4 1 0 bufferOk).log = 1 ∧
    (fullManager.CreateBuffer 16 [98] true 4 1 0 bufferOk).state.GetBuffer [98] = 42 := by
  decide

/-- C8 as the code has it (compile diagnostics): when compilation fails on
a miss and the compiler hands back an error blob, the error thrown by
`LoadVertexShader` and by `LoadPixelShader` carries the bytes of the blob up
to its first NUL, which is the whole diagnostic text when the blob is that
text followed by its terminating NUL; when the compiler hands back no error
blob, the fixed message `Failed to compile vertex shader` (for pixel shaders
`Failed to compile pixel shader`) is thrown. -/
theorem C8_diagnostic_up_to_nul (s : ResourceManager) (fp : WString) (ep tg : Bytes)
    (w : ShaderWorld) (text rest : Bytes) (hfail : FAILED w.hrCompile = true) :
    (w.errorBlob = some (text ++ 0 :: rest) → 0 ∉ text →
      (find s.m_vertexShaderMap (shaderKey fp ep) = none →
        (s.LoadVertexShader fp ep tg w).outcome = .threw text) ∧
      (find s.m_pixelShaderMap (shaderKey fp ep) = none →
        (s.LoadPixelShader fp ep tg w).outcome = .threw text)) ∧
    (w.errorBlob = none →
      (find s.m_vertexShaderMap (shaderKey fp ep) = none →
        (s.LoadVertexShader fp ep tg w).outcome =
          .threw (ascii "Failed to compile vertex shader")) ∧
      (find s.m_pixelShaderMap (shaderKey fp ep) = none →
        (s.LoadPixelShader fp ep tg w).outcome =
          .threw (ascii "Failed to compile pixel shader"))) := by
  refine ⟨fun hblob htext => ⟨fun hf => ?_, fun hf => ?_⟩,
    fun hblob => ⟨fun hf => ?_, fun hf => ?_⟩⟩
  · simp only [ResourceManager.LoadVertexShader, hf, hfail, hblob, if_true]
    rw [cstr_terminated text rest htext]
  · simp only [ResourceManager.LoadPixelShader, hf, hfail, hblob, if_true]
    rw [cstr_terminated text rest htext]
  · simp only [ResourceManager.LoadVertexShader, hf, hfail, hblob, if_true]
  · simp only [ResourceManager.LoadPixelShader, hf, hfail, hblob, if_true]

/-- The witness of C8: the compiler fails with the diagnostic `"E1"` stored
NUL-terminated, and both loaders throw exactly `"E1"`; the compiler fails
without an error blob, and both loaders throw their fixed message. -/
theorem C8_diagnostic_up_to_nul_witness :
    (FAILED shaderBadSource.hrCompile = true ∧
      shaderBadSource.errorBlob = some ([69, 49] ++ 0 :: []) ∧ 0 ∉ ([69, 49] : Bytes) ∧
      find sampleManager.m_vertexShaderMap (shaderKey pathA entryVS) = none ∧
      find sampleManager.m_pixelShaderMap (shaderKey pathA entryVS) = none ∧
      FAILED shaderNoBlob.hrCompile = true ∧ shaderNoBlob.errorBlob = none) ∧
    (sampleManager.LoadVertexShader pathA entryVS targetVs5 shaderBadSource).outcome =
      .threw [69, 49] ∧
    (sampleManager.LoadPixelShader pathA entryVS targetVs5 shaderBadSource).outcome =
      .threw [69, 49] ∧
    (sampleManager.LoadVertexShader pathA entryVS targetVs5 shaderNoBlob).outcome =
      .threw (ascii "Failed to compile vertex shader") ∧
    (sampleManager.LoadPixelShader pathA entryVS targetVs5 shaderNoBlob).outcome =
      .threw (ascii "Failed to compile pixel shader") :=
  ⟨⟨by decide, by decide, by decide, by decide, by decide, by decide, by decide⟩,
   ((C8_diagnostic_up_to_nul sampleManager pathA entryVS targetVs5 shaderBadSource [69, 49] []
      (by decide)).1 (by decide) (by decide)).1 (by decide),
   ((C8_diagnostic_up_to_nul sampleManager pathA entryVS targetVs5 shaderBadSource [69, 49] []
      (by decide)).1 (by decide) (by decide)).2 (by decide),
   ((C8_diagnostic_up_to_nul sampleManager pathA entryVS targetVs5 shaderNoBlob [] []
      (by decide)).2 (by decide)).1 (by decide),
   ((C8_diagnostic_up_to_nul sampleManager pathA entryVS targetVs5 shaderNoBlob [] []
      (by decide)).2 (by decide)).2 (by decide)⟩

/-- C8 as stated fails: a compilation that fails without an error blob makes
both loaders throw a fixed message of the source, which is no text of the
compiler; and for the four-byte error blob `E`, NUL, `1`, NUL the thrown
message is the single byte `E`, not the blob's content before its last NUL. -/
theorem C8_counterexample :
    (FAILED shaderNoBlob.hrCompile = true ∧ shaderNoBlob.errorBlob = none ∧
      (sampleManager.LoadVertexShader pathA entryVS targetVs5 shaderNoBlob).outcome =
        .threw (ascii "Failed to compile vertex shader") ∧
      (sampleManager.LoadPixelShader pathA entryVS targetVs5 shaderNoBlob).outcome =
        .threw (ascii "Failed to compile pixel shader")) ∧
    (FAILED shaderNulBlob.hrCompile = true ∧
      shaderNulBlob.errorBlob = some [69, 0, 49, 0] ∧
      (sampleManager.LoadVertexShader pathA entryVS targetVs5 shaderNulBlob).outcome =
        .threw [69] ∧
      (sampleManager.LoadVertexShader pathA entryVS targetVs5 shaderNulBlob).outcome ≠
        .threw [69, 0, 49] ∧
      (sampleManager.LoadPixelShader pathA entryVS targetVs5 shaderNulBlob).outcome =
        .threw [69]) := by
  refine ⟨⟨by decide, by decide, rfl, rfl⟩, by decide⟩

/-- C10 as the code has it (buffer byte layout): for a 32-bit count and an
element size whose product with the count is below `2^32`, the description
that `CreateBuffer` passes to the device has `ByteWidth` equal to the exact
product, and its CPU access flags are `D3D11_CPU_ACCESS_WRITE` exactly when
the usage is `D3D11_USAGE_DYNAMIC` and zero otherwise. -/
theorem C10_byte_width_exact (s : ResourceManager) (sizeofT : Nat) (name : WString)
    (dataNonNull : Bool) (count bindFlags usage : Nat) (w : BufferWorld)
    (hd : s.m_device ≠ 0) (hc : count < 2 ^ 32) (hp : sizeofT * count < 2 ^ 32) :
    (s.CreateBuffer sizeofT name dataNonNull count bindFlags usage w).log =
      [⟨.CreateBuffer (bufferDesc sizeofT count bindFlags usage) dataNonNull, w.hrCreate⟩] ∧
    (bufferDesc sizeofT count bindFlags usage).ByteWidth = sizeofT * count ∧
    ((bufferDesc sizeofT count bindFlags usage).CPUAccessFlags = D3D11_CPU_ACCESS_WRITE ↔
      usage = D3D11_USAGE_DYNAMIC) ∧
    ((bufferDesc sizeofT count bindFlags usage).CPUAccessFlags = 0 ↔
      usage ≠ D3D11_USAGE_DYNAMIC) := by
  refine ⟨?_, ?_, ?_, ?_⟩
  · rcases Bool.eq_false_or_eq_true (FAILED w.hrCreate) with hf | hf <;>
      simp [ResourceManager.CreateBuffer, hd, hf]
  · simp only [bufferDesc, u32]
    rw [Nat.mod_eq_of_lt hc, Nat.mod_eq_of_lt hp]
  · by_cases hu : usage = D3D11_USAGE_DYNAMIC <;>
      simp [bufferDesc, hu, D3D11_CPU_ACCESS_WRITE]
  · by_cases hu : usage = D3D11_USAGE_DYNAMIC <;>
      simp [bufferDesc, hu, D3D11_CPU_ACCESS_WRITE]

/-- The witness of C10: four 16-byte elements give a `ByteWidth` of 64. -/
theorem C10_byte_width_exact_witness :
    (sampleManager.m_device ≠ 0 ∧ 4 < 2 ^ 32 ∧ 16 * 4 < 2 ^ 32) ∧
    (bufferDesc 16 4 1 2).ByteWidth = 16 * 4 ∧
    ((bufferDesc 16 4 1 2).CPUAccessFlags = D3D11_CPU_ACCESS_WRITE ↔
      2 = D3D11_USAGE_DYNAMIC) :=
  ⟨⟨by decide, by decide, by decide⟩,
   (C10_byte_width_exact sampleManager 16 [98] true 4 1 2 bufferOk
      (by decide) (by decide) (by decide)).2.1,
   (C10_byte_width_exact sampleManager 16 [98] true 4 1 2 bufferOk
      (by decide) (by decide) (by decide)).2.2.1⟩

/-- C10 as stated fails: for 16-byte elements and the 32-bit count `2^28` the
exact product is `2^32`, but the `ByteWidth` passed to the device is `0`. -/
theorem C10_counterexample :
    268435456 < 2 ^ 32 ∧
    (sampleManager.CreateBuffer 16 [98] true 268435456 1 0 bufferOk).log =
      [⟨.CreateBuffer { ByteWidth := 0, Usage := 0, BindFlags := 1, CPUAccessFlags := 0 } true,
        0⟩] ∧
    (bufferDesc 16 268435456 1 0).ByteWidth ≠ 16 * 268435456 := by
  decide

end Cssrc
